import Mathlib

/-!
Verification development for the digital-voting front-end.

The definitions below are a shallow embedding of the TypeScript source:

* `src/unnamed/part_001` — `VoterDashboard`, the generated `Database` table
  types, and the Supabase service layer (`castVote`, `checkVoteStatus`,
  `updateUserProfile`, `getUserProfile`, ...).
* `src/unnamed/part_002` — `AuthContext`: `VoterType` / `AdminType` /
  `UserType`, `isAdmin`, `isVoter`, `login`, `loginWithEmail`, `verifyOtp`,
  `verifyVoterId`, `adminLogin`, `fetchUserProfile`.
* `src/src/pages/VoterLogin.tsx` — the voter login page with the resend
  cooldown UI.

Asynchronous store and identity-provider calls are modelled by explicit
state passing plus boolean fault oracles (one per external request that can
fail), and the requests actually issued to the provider are returned as a
list so that "no network request was made" is expressible.
-/

/-- `VoterType` from part_002: optional fields are `Option`, mirroring the
TypeScript optional properties `aadhaarNumber?` and `voterId?`. -/
structure VoterType where
  id : String
  phone : String
  name : String
  aadhaarNumber : Option String
  voterId : Option String
  constituency : String
  hasVoted : Bool
deriving DecidableEq, Repr

/-- `AdminType` from part_002. The TypeScript field `role : 'admin'` is a
literal type, so every well-typed value carries the marker `"admin"`; it is
therefore modelled as the constant function `AdminType.role` below. -/
structure AdminType where
  id : String
  username : String
  name : String
deriving DecidableEq, Repr

/-- The `role` field of `AdminType`, whose TypeScript type is the string
literal `'admin'`: its only possible value is `"admin"`. -/
def AdminType.role (_ : AdminType) : String := "admin"

/-- `UserType = VoterType | AdminType | null` from part_002. -/
inductive UserType where
  | voter (v : VoterType)
  | admin (a : AdminType)
  | null
deriving DecidableEq, Repr

/-- The role marker carried by a user record: the JavaScript test
`'role' in user` succeeds exactly on `AdminType` records (only `AdminType`
declares a `role` property), and then `user.role` is read. -/
def roleMarker : UserType → Option String
  | .admin a => some a.role
  | .voter _ => none
  | .null => none

/-- `isAdmin` from part_002:
`user !== null && 'role' in user && user.role === 'admin'`. -/
def isAdmin : UserType → Bool
  | .null => false
  | .voter _ => false
  | .admin a => a.role == "admin"

/-- `isVoter` from part_002: `user !== null && !('role' in user)`. -/
def isVoter : UserType → Bool
  | .null => false
  | .voter _ => true
  | .admin _ => false

/-- A row of the `constituencies` table (generated `Database` types in
part_001): `id`, `name`, `state`, `total_voters`. -/
structure ConstituencyRow where
  id : String
  name : String
  state : String
  total_voters : Nat
deriving DecidableEq, Repr

/-- The shape returned by `getUserProfile` in part_001
(`select('*, constituencies(*)')`): a `profiles` row with its joined
constituency.  Nullable columns are `Option`; `has_voted` is a non-null
boolean in the generated `Database` types. -/
structure JoinedProfile where
  id : String
  name : Option String
  phone : Option String
  aadhaar_number : Option String
  voter_id : Option String
  constituencies : Option ConstituencyRow
  has_voted : Bool
deriving DecidableEq, Repr

/-- JavaScript `x || undefined` on a nullable string: `null` and the empty
string (both falsy) become `undefined`. -/
def jsStringOrNone : Option String → Option String
  | some s => if s = "" then none else some s
  | none => none

/-- The `VoterType` built by `fetchUserProfile` in part_002 from a profile
row: `phone: profile.phone || ''`, `name: profile.name || ''`,
`aadhaarNumber: profile.aadhaar_number || undefined`,
`voterId: profile.voter_id || undefined`,
`constituency: profile.constituencies?.name || ''`,
`hasVoted: profile.has_voted`.  (For `x || ''` on an `Option String`,
`Option.getD "" ` agrees with JavaScript: `null` and `""` both yield `""`.) -/
def hydrateVoter (profile : JoinedProfile) : VoterType :=
  { id := profile.id
  , phone := profile.phone.getD ""
  , name := profile.name.getD ""
  , aadhaarNumber := jsStringOrNone profile.aadhaar_number
  , voterId := jsStringOrNone profile.voter_id
  , constituency := (profile.constituencies.map ConstituencyRow.name).getD ""
  , hasVoted := profile.has_voted }

/-- `fetchUserProfile` from part_002, as the pure state transition on the
in-memory user: if `getUserProfile` returned a profile, set the hydrated
`VoterType`; otherwise set `null`. -/
def fetchUserProfile : Option JoinedProfile → UserType
  | some profile => .voter (hydrateVoter profile)
  | none => .null

/-- C4: a user record is classified as Administrator exactly when it carries
a role marker equal to "admin", and every non-null record is classified as
exactly one of Administrator or Voter. -/
theorem role_classification (u : UserType) (h : u ≠ UserType.null) :
    (isAdmin u = true ↔ roleMarker u = some "admin")
    ∧ (isAdmin u = true ↔ isVoter u = false) := by
  cases u with
  | voter v => simp [isAdmin, isVoter, roleMarker]
  | admin a => simp [isAdmin, isVoter, roleMarker, AdminType.role]
  | null => exact absurd rfl h

/-- Witness for `role_classification` at a concrete voter record. -/
theorem role_classification_witness :
    (isAdmin (UserType.voter ⟨"u1", "", "A", none, none, "", false⟩) = true
      ↔ roleMarker (UserType.voter ⟨"u1", "", "A", none, none, "", false⟩) = some "admin")
    ∧ (isAdmin (UserType.voter ⟨"u1", "", "A", none, none, "", false⟩) = true
      ↔ isVoter (UserType.voter ⟨"u1", "", "A", none, none, "", false⟩) = false) :=
  role_classification (UserType.voter ⟨"u1", "", "A", none, none, "", false⟩) (by decide)

/-- C10: hydrating a Voter from a profile whose joined constituency is null
yields an empty constituency string, and hydration is a total function: on a
profile with every nullable column null it still produces a well-formed
Voter. -/
theorem fetchUserProfile_null_constituency (p : JoinedProfile)
    (h : p.constituencies = none) :
    (hydrateVoter p).constituency = ""
    ∧ fetchUserProfile (some ⟨"u1", none, none, none, none, none, false⟩)
        = UserType.voter ⟨"u1", "", "", none, none, "", false⟩ := by
  constructor
  · simp [hydrateVoter, h]
  · rfl

/-- Witness for `fetchUserProfile_null_constituency` at a concrete profile. -/
theorem fetchUserProfile_null_constituency_witness :
    (hydrateVoter ⟨"u2", some "N", some "p", none, none, none, true⟩).constituency = ""
    ∧ fetchUserProfile (some ⟨"u1", none, none, none, none, none, false⟩)
        = UserType.voter ⟨"u1", "", "", none, none, "", false⟩ :=
  fetchUserProfile_null_constituency ⟨"u2", some "N", some "p", none, none, none, true⟩ rfl

/-- A row of the `votes` table (generated `Database` types in part_001),
with the columns `castVote` inserts: `voter_id`, `candidate_id`,
`constituency_id`. -/
structure VoteRow where
  voter_id : String
  candidate_id : String
  constituency_id : String
deriving DecidableEq, Repr

/-- A row of the `profiles` table (generated `Database` types in part_001):
nullable columns are `Option`, `has_voted` is a non-null boolean. -/
structure ProfileRow where
  id : String
  name : Option String
  phone : Option String
  aadhaar_number : Option String
  voter_id : Option String
  constituency_id : Option String
  has_voted : Bool
deriving DecidableEq, Repr

/-- The external relational store, restricted to the tables the voting
operations touch. -/
structure Store where
  votes : List VoteRow
  profiles : List ProfileRow
deriving DecidableEq, Repr

/-- The rows of the `votes` table matching `.eq('voter_id', voterId)`. -/
def votesFor (st : Store) (voterId : String) : List VoteRow :=
  st.votes.filter (fun v => v.voter_id == voterId)

/-- The store after the `votes` insert in `castVote` (part_001):
`insert([{ voter_id, candidate_id, constituency_id }])`. -/
def insertVote (st : Store) (voterId candidateId constituencyId : String) : Store :=
  { st with votes := st.votes ++ [⟨voterId, candidateId, constituencyId⟩] }

/-- The store after the `profiles` update in `castVote` (part_001):
`update({ has_voted: true }).eq('id', voterId)` — every row whose `id`
matches gets `has_voted := true`. -/
def setHasVoted (st : Store) (voterId : String) : Store :=
  { st with profiles :=
      st.profiles.map (fun p => if p.id == voterId then { p with has_voted := true } else p) }

/-- Fault oracle for the three store requests `castVote` issues: the
existence check, the vote insert, and the profile-flag update.  A `true`
component means that request returns an error (which the `catch` converts
to a `false` result). -/
structure CastVoteFaults where
  checkFail : Bool
  insertFail : Bool
  updateFail : Bool
deriving DecidableEq, Repr

/-- `castVote` from part_001.  Sequence: (a) `maybeSingle` query for a vote
row keyed by `voter_id` — on `checkError` the `catch` returns `false` with
no write, and a found row is rejected as "already voted" with no write;
(b) insert the vote row — on error the `catch` returns `false`; (c) update
the profile's `has_voted` flag — on error the `catch` returns `false`, but
the insert from (b) has already been committed; `true` only when all three
requests succeed. -/
def castVote (st : Store) (f : CastVoteFaults)
    (voterId candidateId constituencyId : String) : Bool × Store :=
  if f.checkFail then (false, st)
  else
    match (votesFor st voterId).head? with
    | some _ => (false, st)
    | none =>
      if f.insertFail then (false, st)
      else
        if f.updateFail then (false, insertVote st voterId candidateId constituencyId)
        else (true, setHasVoted (insertVote st voterId candidateId constituencyId) voterId)

/-- Result of one store query: either the data or an error that the
surrounding `catch` will observe. -/
inductive QueryResult (α : Type) where
  | ok (data : α)
  | err
deriving DecidableEq, Repr

/-- The result handling of `checkVoteStatus` (part_001) applied to the raw
response of `select('has_voted')...single()`: on an error, the `catch`
returns `false`; otherwise `data?.has_voted || false` — a missing row or a
null flag also yields `false`.  The response datum is the optional row
reduced to its `has_voted` value, itself optional to cover a null flag. -/
def checkVoteStatusResp : QueryResult (Option (Option Bool)) → Bool
  | .err => false
  | .ok data => (data.getD none).getD false

/-- The `profiles` row matching `.eq('id', userId)`. -/
def findProfile (st : Store) (userId : String) : Option ProfileRow :=
  st.profiles.find? (fun p => p.id == userId)

/-- `checkVoteStatus` from part_001 against the store: `single()` errors
when the query fails or no row matches; otherwise the row's `has_voted`
value is returned to the response handler. -/
def checkVoteStatus (st : Store) (queryFail : Bool) (voterId : String) : Bool :=
  checkVoteStatusResp
    (if queryFail then .err
     else match findProfile st voterId with
       | none => .err
       | some p => .ok (some (some p.has_voted)))

/-- Updating the `has_voted` flag leaves the `votes` table untouched. -/
theorem votesFor_setHasVoted (st : Store) (v w : String) :
    votesFor (setHasVoted st v) w = votesFor st w := rfl

/-- After inserting a vote row for a voter, the rows keyed by that voter are
the previous ones followed by the new row. -/
theorem votesFor_insertVote_self (st : Store) (v c k : String) :
    votesFor (insertVote st v c k) v = votesFor st v ++ [⟨v, c, k⟩] := by
  simp [votesFor, insertVote, List.filter_append]

/-- C1: `castVote` first queries for an existing vote row keyed by the voter
id and, if one is found, rejects without writing; it returns true only when
the check, the insert and the flag update all succeed on a voter with no
existing row; and a second sequential `castVote` for the same voter after a
successful first call returns false and inserts no second vote row. -/
theorem castVote_sequence_and_idempotent_rejection
    (st stFound : Store) (f f2 fFound : CastVoteFaults)
    (V c k c2 k2 VF cF kF : String)
    (hFoundVote : votesFor stFound VF ≠ [])
    (hFoundCheck : fFound.checkFail = false)
    (hok : (castVote st f V c k).1 = true) :
    castVote stFound fFound VF cF kF = (false, stFound)
    ∧ f.checkFail = false
    ∧ votesFor st V = []
    ∧ f.insertFail = false
    ∧ f.updateFail = false
    ∧ (castVote st f V c k).2 = setHasVoted (insertVote st V c k) V
    ∧ (castVote (castVote st f V c k).2 f2 V c2 k2).1 = false
    ∧ ((castVote (castVote st f V c k).2 f2 V c2 k2).2).votes
        = ((castVote st f V c k).2).votes := by
  have hFound : castVote stFound fFound VF cF kF = (false, stFound) := by
    rcases hl : votesFor stFound VF with _ | ⟨v, vs⟩
    · exact absurd hl hFoundVote
    · simp [castVote, hFoundCheck, hl]
  rcases f with ⟨cf, inf, uf⟩
  cases cf with
  | true => simp [castVote] at hok
  | false =>
    rcases hl : votesFor st V with _ | ⟨v, vs⟩
    case cons => simp [castVote, hl] at hok
    case nil =>
      cases inf with
      | true => simp [castVote, hl] at hok
      | false =>
        cases uf with
        | true => simp [castVote, hl] at hok
        | false =>
          have hres : castVote st ⟨false, false, false⟩ V c k
              = (true, setHasVoted (insertVote st V c k) V) := by
            simp [castVote, hl]
          have hv : votesFor (setHasVoted (insertVote st V c k) V) V = [⟨V, c, k⟩] := by
            rw [votesFor_setHasVoted, votesFor_insertVote_self, hl]
            rfl
          have hsecond : castVote (setHasVoted (insertVote st V c k) V) f2 V c2 k2
              = (false, setHasVoted (insertVote st V c k) V) := by
            rcases f2 with ⟨g1, g2, g3⟩
            cases g1 <;> simp [castVote, hv]
          refine ⟨hFound, rfl, rfl, rfl, rfl, ?_, ?_, ?_⟩
          · rw [hres]
          · rw [hres]
            simp [hsecond]
          · rw [hres]
            simp [hsecond]

/-- Witness for `castVote_sequence_and_idempotent_rejection`: a store that
already holds a vote row for voter "W", and a fresh voter "V" whose first
call succeeds. -/
theorem castVote_sequence_and_idempotent_rejection_witness :
    castVote ⟨[⟨"W", "c0", "k0"⟩], []⟩ ⟨false, false, false⟩ "W" "c1" "k1"
        = (false, ⟨[⟨"W", "c0", "k0"⟩], []⟩)
    ∧ (⟨false, false, false⟩ : CastVoteFaults).checkFail = false
    ∧ votesFor ⟨[], [⟨"V", none, none, none, none, none, false⟩]⟩ "V" = []
    ∧ (⟨false, false, false⟩ : CastVoteFaults).insertFail = false
    ∧ (⟨false, false, false⟩ : CastVoteFaults).updateFail = false
    ∧ (castVote ⟨[], [⟨"V", none, none, none, none, none, false⟩]⟩
          ⟨false, false, false⟩ "V" "c" "k").2
        = setHasVoted (insertVote ⟨[], [⟨"V", none, none, none, none, none, false⟩]⟩
            "V" "c" "k") "V"
    ∧ (castVote (castVote ⟨[], [⟨"V", none, none, none, none, none, false⟩]⟩
          ⟨false, false, false⟩ "V" "c" "k").2 ⟨false, false, false⟩ "V" "c2" "k2").1 = false
    ∧ ((castVote (castVote ⟨[], [⟨"V", none, none, none, none, none, false⟩]⟩
          ⟨false, false, false⟩ "V" "c" "k").2 ⟨false, false, false⟩ "V" "c2" "k2").2).votes
        = ((castVote ⟨[], [⟨"V", none, none, none, none, none, false⟩]⟩
            ⟨false, false, false⟩ "V" "c" "k").2).votes :=
  castVote_sequence_and_idempotent_rejection
    ⟨[], [⟨"V", none, none, none, none, none, false⟩]⟩ ⟨[⟨"W", "c0", "k0"⟩], []⟩
    ⟨false, false, false⟩ ⟨false, false, false⟩ ⟨false, false, false⟩
    "V" "c" "k" "c2" "k2" "W" "c1" "k1" (by decide) rfl (by decide)

/-- C2: when the existence check passes, the vote insert succeeds and the
profile-flag update fails, `castVote` returns false while the inserted vote
row remains in the store and the profiles table — hence the has-voted flag —
is unchanged. -/
theorem castVote_nonatomic_update_failure
    (st : Store) (f : CastVoteFaults) (V c k : String)
    (hc : f.checkFail = false) (hi : f.insertFail = false) (hu : f.updateFail = true)
    (hprev : votesFor st V = []) :
    (castVote st f V c k).1 = false
    ∧ VoteRow.mk V c k ∈ (castVote st f V c k).2.votes
    ∧ (castVote st f V c k).2.profiles = st.profiles := by
  rcases f with ⟨cf, inf, uf⟩
  subst hc
  subst hi
  subst hu
  simp [castVote, hprev, insertVote]

/-- Witness for `castVote_nonatomic_update_failure`: a fresh voter "V", the
flag update failing. -/
theorem castVote_nonatomic_update_failure_witness :
    (castVote ⟨[], [⟨"V", none, none, none, none, none, false⟩]⟩
        ⟨false, false, true⟩ "V" "c" "k").1 = false
    ∧ VoteRow.mk "V" "c" "k"
        ∈ (castVote ⟨[], [⟨"V", none, none, none, none, none, false⟩]⟩
            ⟨false, false, true⟩ "V" "c" "k").2.votes
    ∧ (castVote ⟨[], [⟨"V", none, none, none, none, none, false⟩]⟩
          ⟨false, false, true⟩ "V" "c" "k").2.profiles
        = [⟨"V", none, none, none, none, none, false⟩] :=
  castVote_nonatomic_update_failure ⟨[], [⟨"V", none, none, none, none, none, false⟩]⟩
    ⟨false, false, true⟩ "V" "c" "k" rfl rfl rfl (by decide)

/-- C8: `checkVoteStatus` returns the stored flag when the row is found, and
returns false on every failing execution — query error, missing row, or a
null flag in the response. -/
theorem checkVoteStatus_fails_closed
    (st stMissing : Store) (v w : String) (p : ProfileRow)
    (hsome : findProfile st v = some p)
    (hnone : findProfile stMissing w = none) :
    checkVoteStatus st true v = false
    ∧ checkVoteStatus stMissing false w = false
    ∧ checkVoteStatus st false v = p.has_voted
    ∧ checkVoteStatusResp .err = false
    ∧ checkVoteStatusResp (.ok none) = false
    ∧ checkVoteStatusResp (.ok (some none)) = false := by
  refine ⟨rfl, ?_, ?_, rfl, rfl, rfl⟩
  · simp [checkVoteStatus, hnone, checkVoteStatusResp]
  · simp [checkVoteStatus, hsome, checkVoteStatusResp]

/-- Witness for `checkVoteStatus_fails_closed`: one store holding voter "V"
with the flag set, one empty store. -/
theorem checkVoteStatus_fails_closed_witness :
    checkVoteStatus ⟨[], [⟨"V", none, none, none, none, none, true⟩]⟩ true "V" = false
    ∧ checkVoteStatus ⟨[], []⟩ false "W" = false
    ∧ checkVoteStatus ⟨[], [⟨"V", none, none, none, none, none, true⟩]⟩ false "V"
        = (ProfileRow.mk "V" none none none none none true).has_voted
    ∧ checkVoteStatusResp .err = false
    ∧ checkVoteStatusResp (.ok none) = false
    ∧ checkVoteStatusResp (.ok (some none)) = false :=
  checkVoteStatus_fails_closed ⟨[], [⟨"V", none, none, none, none, none, true⟩]⟩ ⟨[], []⟩
    "V" "W" ⟨"V", none, none, none, none, none, true⟩ rfl rfl

/-- The pending-identifier state of the `AuthProvider` (part_002):
`pendingPhone` and `pendingEmail`, both initially null. -/
structure AuthState where
  pendingPhone : Option String
  pendingEmail : Option String
deriving DecidableEq, Repr

/-- The payload of a `supabase.auth.verifyOtp` request as built in part_002:
`{ phone: pendingPhone, email: pendingEmail, token: otp, type: 'email' }`.
The `type` field is named `verType` here. -/
structure VerifyReq where
  phone : Option String
  email : Option String
  token : String
  verType : String
deriving DecidableEq, Repr

/-- `verifyOtp` from part_002: if neither a phone nor an email is pending,
return false without any provider request; otherwise submit the code with
the literal verification type `'email'`; on provider rejection the `catch`
returns false and the pending state is kept; on success both pending fields
are cleared and true is returned.  Result: (success, new state, requests
issued to the provider). -/
def verifyOtp (st : AuthState) (providerOk : Bool) (otp : String) :
    Bool × AuthState × List VerifyReq :=
  match st.pendingPhone, st.pendingEmail with
  | none, none => (false, st, [])
  | _, _ =>
    if providerOk then
      (true, ⟨none, none⟩, [⟨st.pendingPhone, st.pendingEmail, otp, "email"⟩])
    else
      (false, st, [⟨st.pendingPhone, st.pendingEmail, otp, "email"⟩])

/-- The payload of a `supabase.auth.signInWithOtp` request: either a phone
or an email. -/
structure OtpReq where
  phone : Option String
  email : Option String
deriving DecidableEq, Repr

/-- The test `/^\d{10}$/.test(phone)` from `login` in part_002. -/
def isValidPhone (s : String) : Bool :=
  (s.length == 10) && s.toList.all Char.isDigit

/-- `login` from part_002: a phone failing the 10-digit test returns false
with no provider request; otherwise `pendingPhone` is set to the
country-code-prefixed phone and a `signInWithOtp` request is issued against
it; the returned boolean is the provider outcome (the `catch` turns a
provider error into false, with the pending phone already set). -/
def login (st : AuthState) (providerOk : Bool) (phone : String) :
    Bool × AuthState × List OtpReq :=
  if !isValidPhone phone then (false, st, [])
  else
    (providerOk,
     { st with pendingPhone := some ("+91" ++ phone) },
     [⟨some ("+91" ++ phone), none⟩])

/-- C5: `verifyOtp` with no pending phone and no pending email fails without
issuing any provider request, and a successful verification clears both
pending fields. -/
theorem verifyOtp_requires_pending
    (st stOk : AuthState) (ok okP : Bool) (otp otpP : String)
    (h1 : st.pendingPhone = none) (h2 : st.pendingEmail = none)
    (h3 : (verifyOtp stOk okP otpP).1 = true) :
    verifyOtp st ok otp = (false, st, [])
    ∧ (verifyOtp stOk okP otpP).2.1.pendingPhone = none
    ∧ (verifyOtp stOk okP otpP).2.1.pendingEmail = none := by
  refine ⟨by simp [verifyOtp, h1, h2], ?_, ?_⟩ <;>
    rcases stOk with ⟨qp, qe⟩ <;>
    cases okP <;> rcases qp with _ | qp <;> rcases qe with _ | qe <;>
    simp_all [verifyOtp]

/-- Witness for `verifyOtp_requires_pending`: an empty session state and a
state with a pending phone whose verification succeeds. -/
theorem verifyOtp_requires_pending_witness :
    verifyOtp ⟨none, none⟩ true "123456" = (false, ⟨none, none⟩, [])
    ∧ (verifyOtp ⟨some "+911234567890", none⟩ true "123456").2.1.pendingPhone = none
    ∧ (verifyOtp ⟨some "+911234567890", none⟩ true "123456").2.1.pendingEmail = none :=
  verifyOtp_requires_pending ⟨none, none⟩ ⟨some "+911234567890", none⟩ true true
    "123456" "123456" rfl rfl rfl

/-- C9: with a pending phone and no pending email, `verifyOtp` issues
exactly one provider request and its verification type is the literal
`"email"`, not a phone/SMS type. -/
theorem verifyOtp_fixed_email_type
    (st : AuthState) (ok : Bool) (otp p : String)
    (hp : st.pendingPhone = some p) (he : st.pendingEmail = none) :
    (verifyOtp st ok otp).2.2 = [⟨some p, none, otp, "email"⟩] := by
  cases ok <;> simp [verifyOtp, hp, he]

/-- Witness for `verifyOtp_fixed_email_type` at a concrete pending phone. -/
theorem verifyOtp_fixed_email_type_witness :
    (verifyOtp ⟨some "+911234567890", none⟩ true "123456").2.2
      = [⟨some "+911234567890", none, "123456", "email"⟩] :=
  verifyOtp_fixed_email_type ⟨some "+911234567890", none⟩ true "123456"
    "+911234567890" rfl rfl

/-- C6: a phone that is not exactly 10 digits makes `login` return false
with no provider request; a phone passing validation leads to exactly one
OTP request against the `+91`-prefixed phone, which is also retained as the
pending phone. -/
theorem login_phone_validation
    (st stG : AuthState) (ok okG : Bool) (phone phoneG : String)
    (hbad : isValidPhone phone = false)
    (hgood : isValidPhone phoneG = true) :
    login st ok phone = (false, st, [])
    ∧ (login stG okG phoneG).2.2 = [⟨some ("+91" ++ phoneG), none⟩]
    ∧ (login stG okG phoneG).2.1.pendingPhone = some ("+91" ++ phoneG) := by
  refine ⟨by simp [login, hbad], by simp [login, hgood], by simp [login, hgood]⟩

/-- Witness for `login_phone_validation`: "12345" is rejected with no
request, "9876543210" passes and is prefixed and retained. -/
theorem login_phone_validation_witness :
    login ⟨none, none⟩ true "12345" = (false, ⟨none, none⟩, [])
    ∧ (login ⟨none, none⟩ true "9876543210").2.2 = [⟨some "+919876543210", none⟩]
    ∧ (login ⟨none, none⟩ true "9876543210").2.1.pendingPhone = some "+919876543210" :=
  login_phone_validation ⟨none, none⟩ ⟨none, none⟩ true true "12345" "9876543210"
    (by decide) (by decide)

/-- The `idType` argument of `verifyVoterId` (part_002):
`'aadhaar' | 'voterId'`. -/
inductive IdType where
  | aadhaar
  | voterId
deriving DecidableEq, Repr

/-- The test `/^\d{12}$/.test(id)` from `verifyVoterId` in part_002. -/
def isValidAadhaar (s : String) : Bool :=
  (s.length == 12) && s.toList.all Char.isDigit

/-- The test `/^[A-Z]{3}\d{7}$/.test(id)` from `verifyVoterId` in part_002:
exactly three ASCII uppercase letters followed by exactly seven digits. -/
def isValidVoterIdFormat (s : String) : Bool :=
  (s.length == 10) && (s.toList.take 3).all Char.isUpper
    && (s.toList.drop 3).all Char.isDigit

/-- The payload of the `updateUserProfile` call issued by `verifyVoterId`:
either `{ aadhaar_number: id }` or `{ voter_id: id }` for the given user. -/
structure ProfileUpdate where
  userId : String
  aadhaar_number : Option String
  voter_id : Option String
deriving DecidableEq, Repr

/-- The local-state update in `verifyVoterId` (part_002) after a successful
profile write: `if (isVoter(user)) setUser({...user, [field]: id})`; a
non-voter in-memory user is left unchanged. -/
def updateLocalUser (u : UserType) (id : String) (idType : IdType) : UserType :=
  match u with
  | .voter v =>
    match idType with
    | .aadhaar => .voter { v with aadhaarNumber := some id }
    | .voterId => .voter { v with voterId := some id }
  | other => other

/-- `verifyVoterId` from part_002: format validation first (12-digit Aadhaar
or 3-letter + 7-digit Voter ID), returning false with no profile write on a
malformed id; then the authenticated-session check (`supabaseUser` non-null);
then one `updateUserProfile` request whose success determines the result,
updating the in-memory voter on success.  Result: (success, new in-memory
user, profile writes issued). -/
def verifyVoterId (supabaseUser : Option String) (u : UserType) (updateOk : Bool)
    (id : String) (idType : IdType) : Bool × UserType × List ProfileUpdate :=
  if idType == IdType.aadhaar && !isValidAadhaar id then (false, u, [])
  else if idType == IdType.voterId && !isValidVoterIdFormat id then (false, u, [])
  else
    match supabaseUser with
    | none => (false, u, [])
    | some uid =>
      let upd : ProfileUpdate :=
        match idType with
        | .aadhaar => ⟨uid, some id, none⟩
        | .voterId => ⟨uid, none, some id⟩
      if updateOk then (true, updateLocalUser u id idType, [upd])
      else (false, u, [upd])

/-- C7: every id failing its format validation makes `verifyVoterId` return
false with no profile write; "123456789012" passes the Aadhaar validation
while "12345" fails it; "ABC1234567" passes the Voter-ID validation while
"AB1234567" fails it; and with an authenticated session and a successful
write, both well-formed examples make `verifyVoterId` succeed. -/
theorem verifyVoterId_format_validation
    (su : Option String) (u : UserType) (ok : Bool) (id : String) (t : IdType)
    (hbad : (t = IdType.aadhaar ∧ isValidAadhaar id = false)
          ∨ (t = IdType.voterId ∧ isValidVoterIdFormat id = false)) :
    verifyVoterId su u ok id t = (false, u, [])
    ∧ isValidAadhaar "123456789012" = true
    ∧ isValidAadhaar "12345" = false
    ∧ isValidVoterIdFormat "ABC1234567" = true
    ∧ isValidVoterIdFormat "AB1234567" = false
    ∧ (verifyVoterId (some "u1") UserType.null true "ABC1234567" IdType.voterId).1 = true
    ∧ (verifyVoterId (some "u1") UserType.null true "123456789012" IdType.aadhaar).1 = true := by
  refine ⟨?_, by decide, by decide, by decide, by decide, by decide, by decide⟩
  rcases hbad with ⟨ht, hv⟩ | ⟨ht, hv⟩ <;> subst ht <;> simp [verifyVoterId, hv]

/-- Witness for `verifyVoterId_format_validation` at the malformed Voter ID
"AB1234567". -/
theorem verifyVoterId_format_validation_witness :
    verifyVoterId none UserType.null false "AB1234567" IdType.voterId
        = (false, UserType.null, [])
    ∧ isValidAadhaar "123456789012" = true
    ∧ isValidAadhaar "12345" = false
    ∧ isValidVoterIdFormat "ABC1234567" = true
    ∧ isValidVoterIdFormat "AB1234567" = false
    ∧ (verifyVoterId (some "u1") UserType.null true "ABC1234567" IdType.voterId).1 = true
    ∧ (verifyVoterId (some "u1") UserType.null true "123456789012" IdType.aadhaar).1 = true :=
  verifyVoterId_format_validation none UserType.null false "AB1234567" IdType.voterId
    (Or.inr ⟨rfl, by decide⟩)

/-- The properties supplied by the `AuthContext` provider in part_002: the
fields of the `value` object passed to `AuthContext.Provider`, which are
exactly the fields of `AuthContextType`. -/
def authContextValueOps : List String :=
  ["user", "supabaseUser", "session", "login", "loginWithEmail", "verifyOtp",
   "verifyVoterId", "adminLogin", "logout", "loading"]

/-- The properties the voter login page destructures from `useAuth()` in
`src/src/pages/VoterLogin.tsx`:
`const { loginWithEmail, verifyOtp, resendOtp, loading } = useAuth()`. -/
def voterLoginAuthOps : List String :=
  ["loginWithEmail", "verifyOtp", "resendOtp", "loading"]

/-- The voter login page destructures a `resendOtp` operation from the auth
context, but the `AuthContext` snapshot in part_002 does not supply one:
`resendOtp` is absent from `AuthContextType` and from the provider's `value`
object.  The snapshot therefore predates the resend feature that
`VoterLogin.tsx` already uses, and `resendOtp` itself has to be modelled
from the spec below. -/
theorem resendOtp_missing_from_auth_context :
    "resendOtp" ∈ voterLoginAuthOps ∧ "resendOtp" ∉ authContextValueOps := by
  decide

/-- Modelled from the spec: the implementation of the auth context's
`resendOtp` is missing from the source files available here (the
`AuthContext` snapshot in part_002 predates it, while `VoterLogin.tsx`
already calls it).  Per the spec it "re-issues an OTP against whichever
identifier is pending", through the same `signInWithOtp` provider call as
`login` / `loginWithEmail`, with no cooldown of its own: the pending state
is kept and the returned boolean is the provider outcome. -/
def resendOtp (st : AuthState) (providerOk : Bool) : Bool × AuthState × List OtpReq :=
  match st.pendingPhone, st.pendingEmail with
  | some p, _ => (providerOk, st, [⟨some p, none⟩])
  | none, some e => (providerOk, st, [⟨none, some e⟩])
  | none, none => (false, st, [])

/-- The resend-cooldown UI state of `VoterLogin.tsx`: the `resendDisabled`
flag and the countdown in seconds. -/
structure ResendUi where
  resendDisabled : Bool
  resendCountdown : Nat
deriving DecidableEq, Repr

/-- `handleResendOtp` from `VoterLogin.tsx`: if `resendDisabled` is set the
handler returns at once (the only cooldown enforcement, a client-side
timer); otherwise it calls `resendOtp` and, on success, rearms the 30-second
cooldown. -/
def handleResendOtp (ui : ResendUi) (st : AuthState) (providerOk : Bool) :
    ResendUi × AuthState × List OtpReq :=
  if ui.resendDisabled then (ui, st, [])
  else
    let r := resendOtp st providerOk
    if r.1 then (⟨true, 30⟩, r.2.1, r.2.2)
    else (ui, r.2.1, r.2.2)

/-- C3: with a pending phone, `resendOtp` re-issues an OTP request against
that phone; with a pending email (and no pending phone), against that email;
the auth layer records no cooldown state of its own (the session state is
unchanged), and the cooldown is enforced only by the UI flag of
`VoterLogin.tsx`: a disabled UI issues no request, an enabled UI issues
exactly what `resendOtp` issues. -/
theorem resendOtp_reissues_pending
    (stP stE : AuthState) (ui : ResendUi) (ok okE : Bool) (p e : String)
    (hp : stP.pendingPhone = some p)
    (he1 : stE.pendingPhone = none) (he2 : stE.pendingEmail = some e)
    (hui : ui.resendDisabled = false) :
    (resendOtp stP ok).2.2 = [⟨some p, none⟩]
    ∧ (resendOtp stE okE).2.2 = [⟨none, some e⟩]
    ∧ (resendOtp stP ok).2.1 = stP
    ∧ (resendOtp stE okE).2.1 = stE
    ∧ (handleResendOtp ⟨true, 30⟩ stP ok).2.2 = []
    ∧ (handleResendOtp ui stP ok).2.2 = (resendOtp stP ok).2.2 := by
  refine ⟨by simp [resendOtp, hp], by simp [resendOtp, he1, he2],
    by simp [resendOtp, hp], by simp [resendOtp, he1, he2], rfl, ?_⟩
  cases ok <;> simp [handleResendOtp, resendOtp, hp, hui]

/-- Witness for `resendOtp_reissues_pending`: a pending phone state, a
pending email state, and an enabled resend UI. -/
theorem resendOtp_reissues_pending_witness :
    (resendOtp ⟨some "+919876543210", none⟩ true).2.2 = [⟨some "+919876543210", none⟩]
    ∧ (resendOtp ⟨none, some "voter@example.com"⟩ true).2.2
        = [⟨none, some "voter@example.com"⟩]
    ∧ (resendOtp ⟨some "+919876543210", none⟩ true).2.1 = ⟨some "+919876543210", none⟩
    ∧ (resendOtp ⟨none, some "voter@example.com"⟩ true).2.1 = ⟨none, some "voter@example.com"⟩
    ∧ (handleResendOtp ⟨true, 30⟩ ⟨some "+919876543210", none⟩ true).2.2 = []
    ∧ (handleResendOtp ⟨false, 0⟩ ⟨some "+919876543210", none⟩ true).2.2
        = (resendOtp ⟨some "+919876543210", none⟩ true).2.2 :=
  resendOtp_reissues_pending ⟨some "+919876543210", none⟩ ⟨none, some "voter@example.com"⟩
    ⟨false, 0⟩ true true "+919876543210" "voter@example.com" rfl rfl rfl rfl
